import Mathlib

/-!
Verification of the libvirt auto-ballooning controller (`src/auto-balloon.py`)
against its natural-language specification.

The Python program is shallowly embedded below:
  * `MemoryStats` (the snapshot of `dom.memoryStats()`) becomes an
    association list `String × Int` together with the attribute-access
    function `MemoryStats.getattribute` mirroring `__getattribute__`;
  * the `StateHandler` registry/singleton machinery becomes explicit state
    passing over `DispState` (a heap of handler objects plus the
    `_handlers` cache keyed by lifecycle state);
  * the per-state `handle` methods become pure functions returning a
    `TickResult` that records the returned signal, the `setMemory` calls
    issued, and the log lines emitted;
  * `libvirtError`s raised by the hypervisor are modelled by `Except Unit`
    results supplied through a `DomainTick` record;
  * `main` becomes a function over a finite trace of per-tick hypervisor
    observations, returning the process outcome and the hypervisor-facing
    actions performed.
-/

set_option autoImplicit false

namespace AutoBalloon

/-! ### libvirt domain-state constants (values from libvirt's public API) -/

def VIR_DOMAIN_NOSTATE : Nat := 0
def VIR_DOMAIN_RUNNING : Nat := 1
def VIR_DOMAIN_BLOCKED : Nat := 2
def VIR_DOMAIN_PAUSED : Nat := 3
def VIR_DOMAIN_SHUTDOWN : Nat := 4
def VIR_DOMAIN_SHUTOFF : Nat := 5
def VIR_DOMAIN_CRASHED : Nat := 6
def VIR_DOMAIN_PMSUSPENDED : Nat := 7

/-! ### Association-list lookup, modelling Python `dict` access -/

/-- Lookup in an association list with `Nat` keys (Python `dict[int, ...]`). -/
def lookupNat {β : Type} (k : Nat) : List (Nat × β) → Option β
  | [] => none
  | (k₂, v) :: rest => if k₂ = k then some v else lookupNat k rest

/-- Lookup in an association list with `String` keys (Python `dict[str, int]`). -/
def lookupStr {β : Type} (k : String) : List (String × β) → Option β
  | [] => none
  | (k₂, v) :: rest => if k₂ = k then some v else lookupStr k rest

/-! ### CLI configuration (`args`) -/

/-- `def MB(x): return x * 1024` (source line 15), restricted to the integer
arguments it is applied to. -/
def MB (x : Int) : Int := x * 1024

/-- `def GB(x): return MB(x) * 1024` (source line 16). -/
def GB (x : Int) : Int := MB x * 1024

/-- The parsed command-line configuration consumed by the controller:
`--min`, `--free`, `--minThreshold`, `--maxThreshold`, `--period`
(source lines 154-158). All are `type=int` in `argparse`. -/
structure Args where
  min : Int
  free : Int
  minThreshold : Int
  maxThreshold : Int
  period : Int
deriving DecidableEq, Repr

/-! ### MemoryStats -/

/-- `MemoryStats._attr_names` (source lines 20-34). -/
def MemoryStats.attr_names : List String :=
  ["actual", "swap_in", "swap_out", "major_fault", "minor_fault",
   "unused", "available", "usable", "last_update", "disk_caches",
   "hugetlb_pgalloc", "hugetlb_pgfail", "rss"]

/-- `self._memoryStats.get(name, 0)`: the value stored for `name`, or 0. -/
def lookupStat (raw : List (String × Int)) (name : String) : Int :=
  (lookupStr name raw).getD 0

/-- `MemoryStats.__getattribute__` (source lines 41-45): names in
`_attr_names` yield `self._memoryStats.get(name, 0)`; any other name raises
`AttributeError(name)`, modelled as `Except.error name`. -/
def MemoryStats.getattribute (raw : List (String × Int)) (name : String) :
    Except String Int :=
  if name ∈ MemoryStats.attr_names then Except.ok (lookupStat raw name)
  else Except.error name

/-! ### Per-tick hypervisor collaborator and tick results -/

/-- One tick's hypervisor behaviour, as seen by a `handle` call:
the result of `dom.memoryStats()` and of `dom.setMemory(target)`.
`Except.error ()` models a raised `libvirtError`. -/
structure DomainTick where
  memoryStats : Except Unit (List (String × Int))
  setMemory : Int → Except Unit Unit

/-- Severity of a log line (`logging` levels used by the program;
`logger.exception` logs at `ERROR`). -/
inductive LogLevel
  | debug
  | info
  | error
deriving DecidableEq, Repr

/-- One emitted log line. -/
structure LogEvent where
  level : LogLevel
  msg : String
deriving DecidableEq, Repr

/-- Observable outcome of one `handle(dom)` call: the returned `int` signal
(0 keeps polling, non-zero stops the loop), the `setMemory` requests issued
(in call order, with their target arguments), and the log lines emitted. -/
structure TickResult where
  signal : Nat
  resizeRequests : List Int
  logs : List LogEvent
deriving DecidableEq, Repr

/-! ### RunningStateHandler.handle -/

/-- The pure resize computation of `RunningStateHandler.handle`
(source lines 86-89):
`prevMem = memStats.actual`;
`mem = memStats.actual - memStats.usable + args.free`;
`mem = mem if mem > args.min else args.min`;
`delta = prevMem - mem`.
Returns `(mem, delta)`. -/
def runningCompute (args : Args) (raw : List (String × Int)) : Int × Int :=
  let prevMem := lookupStat raw "actual"
  let mem := lookupStat raw "actual" - lookupStat raw "usable" + args.free
  let mem := if mem > args.min then mem else args.min
  (mem, prevMem - mem)

/-- `RunningStateHandler.handle` (source lines 81-100).  The body runs under
`try ... except libvirtError`, so a `libvirtError` from `dom.memoryStats()`
or `dom.setMemory(mem)` is caught and logged via
`logger.exception("failed to resize memory")` (an ERROR-severity line), and
the method still returns 0.  The `logger.info` line is emitted before
`dom.setMemory(mem)` is called (source lines 94-95). -/
def runningHandle (args : Args) (dom : DomainTick) : TickResult :=
  match dom.memoryStats with
  | Except.error _ =>
      ⟨0, [], [⟨LogLevel.error, "failed to resize memory"⟩]⟩
  | Except.ok raw =>
      let mem := (runningCompute args raw).1
      let delta := (runningCompute args raw).2
      let dbg : LogEvent := ⟨LogLevel.debug, "actual usable delta"⟩
      if delta < -args.minThreshold ∨ delta > args.maxThreshold then
        let inf : LogEvent := ⟨LogLevel.info, "memory resized"⟩
        match dom.setMemory mem with
        | Except.ok _ => ⟨0, [mem], [dbg, inf]⟩
        | Except.error _ =>
            ⟨0, [mem], [dbg, inf, ⟨LogLevel.error, "failed to resize memory"⟩]⟩
      else ⟨0, [], [dbg]⟩

/-! ### StateHandler registry and singleton cache -/

/-- The concrete `StateHandler` subclasses (source lines 80-131). -/
inductive HandlerClass
  | running
  | nostate
  | paused
  | shutdown
  | shutoff
  | pmsuspended
deriving DecidableEq, Repr

/-- `StateHandler._registry` as populated by `__init_subclass__` at class
definition time (source lines 55-60 with the six subclass declarations).
Note `NoStateStateHandler` is declared with `state=libvirt.VIR_DOMAIN_BLOCKED`
(source line 103). -/
def registry : List (Nat × HandlerClass) :=
  [(VIR_DOMAIN_RUNNING, HandlerClass.running),
   (VIR_DOMAIN_BLOCKED, HandlerClass.nostate),
   (VIR_DOMAIN_PAUSED, HandlerClass.paused),
   (VIR_DOMAIN_SHUTDOWN, HandlerClass.shutdown),
   (VIR_DOMAIN_SHUTOFF, HandlerClass.shutoff),
   (VIR_DOMAIN_PMSUSPENDED, HandlerClass.pmsuspended)]

/-- A `StateHandler` instance on the heap: its class and its two slots
`_state` and `_args` (source line 53), `none` until `__init__` sets them. -/
structure Obj where
  cls : HandlerClass
  fieldState : Option Nat
  fieldArgs : Option Args
deriving DecidableEq, Repr

/-- The mutable dispatcher state: a fresh-identity counter, the heap of
allocated handler instances (identity → object), and
`StateHandler._handlers` (source line 50), the state → instance cache. -/
structure DispState where
  nextId : Nat
  objs : List (Nat × Obj)
  handlers : List (Nat × Nat)
deriving DecidableEq, Repr

/-- The dispatcher state at process start: empty cache, empty heap. -/
def initDispState : DispState := ⟨0, [], []⟩

/-- Errors that escape the dispatcher: `cls._registry[state]` raises
`KeyError(state)` when the state has no registered subclass. -/
inductive PyError
  | keyError (state : Nat)
deriving DecidableEq, Repr

/-- `StateHandler.__new__` (source lines 62-70): look up the subclass in
`_registry` (raising `KeyError` if absent), return the cached instance from
`_handlers` if present, otherwise allocate a fresh instance and cache it.
Returns the instance identity, its class, and the updated state. -/
def stateHandlerNew (state : Nat) (s : DispState) :
    Except PyError (Nat × HandlerClass × DispState) :=
  match lookupNat state registry with
  | none => Except.error (PyError.keyError state)
  | some cls =>
      match lookupNat state s.handlers with
      | some objId => Except.ok (objId, cls, s)
      | none =>
          let objId := s.nextId
          Except.ok (objId, cls,
            ⟨s.nextId + 1,
             (objId, ⟨cls, none, none⟩) :: s.objs,
             (state, objId) :: s.handlers⟩)

/-- Overwrite the `_state` and `_args` slots of the heap entry for `objId`. -/
def updateSlots (objId state : Nat) (args : Args) :
    List (Nat × Obj) → List (Nat × Obj)
  | [] => []
  | (k, v) :: rest =>
      if k = objId then
        (k, { v with fieldState := some state, fieldArgs := some args })
          :: updateSlots objId state args rest
      else (k, v) :: updateSlots objId state args rest

/-- `StateHandler.__init__` (source lines 72-74): store `state` and `args`
into the instance's `_state` and `_args` slots (overwriting any previous
values). -/
def setFields (s : DispState) (objId : Nat) (state : Nat) (args : Args) :
    DispState :=
  { s with objs := updateSlots objId state args s.objs }

/-- The full constructor call `StateHandler(state, args)`: Python's
`type.__call__` runs `__new__` and then always runs `__init__` on the
returned instance, cached or fresh. -/
def stateHandlerConstruct (state : Nat) (args : Args) (s : DispState) :
    Except PyError (Nat × HandlerClass × DispState) :=
  match stateHandlerNew state s with
  | Except.error e => Except.error e
  | Except.ok (objId, cls, s₁) =>
      Except.ok (objId, cls, setFields s₁ objId state args)

/-- Dispatch of `handle(dom)` on the instance's class (source lines 80-131):
`RunningStateHandler` runs the resize algorithm; the other handlers only log
one debug line; `ShutdownStateHandler` and `ShutoffStateHandler` return 1,
all others return 0. -/
def handleFor (cls : HandlerClass) (args : Args) (dom : DomainTick) :
    TickResult :=
  match cls with
  | HandlerClass.running => runningHandle args dom
  | HandlerClass.nostate => ⟨0, [], [⟨LogLevel.debug, "VIR_DOMAIN_NOSTATE"⟩]⟩
  | HandlerClass.paused => ⟨0, [], [⟨LogLevel.debug, "VIR_DOMAIN_PAUSED"⟩]⟩
  | HandlerClass.shutdown => ⟨1, [], [⟨LogLevel.debug, "VIR_DOMAIN_SHUTDOWN"⟩]⟩
  | HandlerClass.shutoff => ⟨1, [], [⟨LogLevel.debug, "VIR_DOMAIN_SHUTOFF"⟩]⟩
  | HandlerClass.pmsuspended =>
      ⟨0, [], [⟨LogLevel.debug, "VIR_DOMAIN_PMSUSPENDED"⟩]⟩

/-! ### The main control loop -/

/-- One loop iteration's hypervisor observations: `dom.state()[0]` and the
behaviour of `dom.memoryStats()` / `dom.setMemory` within that tick. -/
structure Tick where
  st : Nat
  dom : DomainTick

/-- Outcome of the modelled process: `exited c` is `exit(c)`; `crashed e` is
an uncaught exception propagating out of `main` (non-zero process exit);
`fuelOut` means the supplied trace ended with the loop still polling. -/
inductive ProcResult
  | exited (code : Nat)
  | crashed (e : PyError)
  | fuelOut
deriving DecidableEq, Repr

/-- Hypervisor-facing actions performed by `main`, in order. -/
inductive Action
  | openSession
  | lookupByName
  | setMemoryStatsPeriod
  | tickRun
deriving DecidableEq, Repr

/-- The `while True` loop of `main` (source lines 141-145):
`if StateHandler(dom.state()[0], args).handle(dom): return 0`.
A `KeyError` from the constructor is not caught anywhere and crashes the
process.  Each executed iteration records a `tickRun` action. -/
def mainLoop (args : Args) (s : DispState) : List Tick → ProcResult × List Action
  | [] => (ProcResult.fuelOut, [])
  | t :: rest =>
      match stateHandlerConstruct t.st args s with
      | Except.error e => (ProcResult.crashed e, [Action.tickRun])
      | Except.ok (_, cls, s₁) =>
          if (handleFor cls args t.dom).signal ≠ 0 then
            (ProcResult.exited 0, [Action.tickRun])
          else
            let r := mainLoop args s₁ rest
            (r.1, Action.tickRun :: r.2)

/-- `main(args)` (source lines 133-145): `if args.period == 0: return 0`
before any hypervisor interaction; otherwise open the session, look up the
domain, call `setMemoryStatsPeriod`, and enter the loop. -/
def main (args : Args) (trace : List Tick) : ProcResult × List Action :=
  if args.period = 0 then (ProcResult.exited 0, [])
  else
    let r := mainLoop args initDispState trace
    (r.1, Action.openSession :: Action.lookupByName ::
          Action.setMemoryStatsPeriod :: r.2)

/-! ### Concrete inputs used by witnesses -/

/-- The CLI default configuration (source lines 154-158):
`min = GB 2`, `free = GB 1`, `minThreshold = MB 100`, `maxThreshold = MB 200`,
`period = 5`. -/
def exampleArgs : Args := ⟨GB 2, GB 1, MB 100, MB 200, 5⟩

/-- A second configuration, differing from `exampleArgs`. -/
def exampleArgs₂ : Args := ⟨GB 4, GB 1, MB 100, MB 200, 7⟩

/-- A concrete raw statistics sample: heavily over-allocated, so the gate
opens in the shrink direction. -/
def exampleRaw : List (String × Int) :=
  [("actual", 4194304), ("usable", 3072000)]

/-- A hypervisor tick whose calls all succeed, returning `exampleRaw`. -/
def exampleDom : DomainTick :=
  ⟨Except.ok exampleRaw, fun _ => Except.ok ()⟩

/-- A tick whose `memoryStats()` raises `libvirtError`. -/
def errStatsDom : DomainTick :=
  ⟨Except.error (), fun _ => Except.ok ()⟩

/-- A tick whose `memoryStats()` succeeds but whose `setMemory` raises
`libvirtError`. -/
def errResizeDom : DomainTick :=
  ⟨Except.ok exampleRaw, fun _ => Except.error ()⟩

/-- A dispatcher state is cache-backed for `state` when its `_handlers`
entry for `state`, if any, points at an allocated heap object.  This holds
for every state reachable from `initDispState`, since `__new__` caches only
objects it has just allocated. -/
def cacheBacked (s : DispState) (state : Nat) : Bool :=
  match lookupNat state s.handlers with
  | some i => (lookupNat i s.objs).isSome
  | none => true

/-- The dispatcher state after `StateHandler(VIR_DOMAIN_RUNNING, exampleArgs)`
starting from the initial state. -/
def demoDisp₁ : DispState :=
  match stateHandlerConstruct VIR_DOMAIN_RUNNING exampleArgs initDispState with
  | Except.ok r => r.2.2
  | Except.error _ => initDispState

/-- The dispatcher state after a second call
`StateHandler(VIR_DOMAIN_RUNNING, exampleArgs₂)`. -/
def demoDisp₂ : DispState :=
  match stateHandlerConstruct VIR_DOMAIN_RUNNING exampleArgs₂ demoDisp₁ with
  | Except.ok r => r.2.2
  | Except.error _ => initDispState

/-! ### Helper lemmas -/

/-- `setFields` touches only the heap, never the `_handlers` cache. -/
theorem setFields_handlers (s : DispState) (objId state : Nat) (args : Args) :
    (setFields s objId state args).handlers = s.handlers := rfl

/-- Updating the slots of entry `objId` in a heap list: looking `objId` up
afterwards yields the updated object. -/
theorem lookup_updateSlots (objId state : Nat) (args : Args) :
    ∀ (l : List (Nat × Obj)) (o : Obj), lookupNat objId l = some o →
      lookupNat objId (updateSlots objId state args l) =
      some { o with fieldState := some state, fieldArgs := some args } := by
  intro l
  induction l with
  | nil => intro o h; simp [lookupNat] at h
  | cons p rest ih =>
      intro o h
      obtain ⟨k, v⟩ := p
      by_cases hk : k = objId
      · simp [lookupNat, hk] at h
        simp [updateSlots, lookupNat, hk, h]
      · simp [lookupNat, hk] at h
        simp [updateSlots, lookupNat, hk]
        exact ih o h

/-- After `setFields`, the first heap entry for `objId` carries the new
slot values. -/
theorem lookup_setFields (s : DispState) (objId state : Nat) (args : Args)
    (o : Obj) (h : lookupNat objId s.objs = some o) :
    lookupNat objId (setFields s objId state args).objs =
      some { o with fieldState := some state, fieldArgs := some args } :=
  lookup_updateSlots objId state args s.objs o h

/-- Constructing a handler for a registered, already-cached state returns
the cached identity and re-runs `__init__` on it. -/
theorem construct_cached (state : Nat) (cls : HandlerClass) (args : Args)
    (s : DispState) (j : Nat)
    (hreg : lookupNat state registry = some cls)
    (hc : lookupNat state s.handlers = some j) :
    stateHandlerConstruct state args s =
      Except.ok (j, cls, setFields s j state args) := by
  unfold stateHandlerConstruct stateHandlerNew
  rw [hreg, hc]

/-- Constructing a handler for a registered state not yet cached allocates a
fresh instance (identity `s.nextId`), caches it, and runs `__init__` on it. -/
theorem construct_fresh (state : Nat) (cls : HandlerClass) (args : Args)
    (s : DispState)
    (hreg : lookupNat state registry = some cls)
    (hc : lookupNat state s.handlers = none) :
    stateHandlerConstruct state args s =
      Except.ok (s.nextId, cls,
        setFields
          ⟨s.nextId + 1, (s.nextId, ⟨cls, none, none⟩) :: s.objs,
           (state, s.nextId) :: s.handlers⟩
          s.nextId state args) := by
  unfold stateHandlerConstruct stateHandlerNew
  rw [hreg, hc]

/-- `RunningStateHandler.handle` always returns 0, on every control path. -/
theorem runningHandle_signal (args : Args) (dom : DomainTick) :
    (runningHandle args dom).signal = 0 := by
  unfold runningHandle
  rcases dom.memoryStats with _ | raw
  · rfl
  · dsimp only
    split
    · split <;> rfl
    · rfl

/-- A tick whose resolved behaviour signals non-zero makes the loop return 0
(`return 0` in `main`). -/
theorem mainLoop_stop (args : Args) (s : DispState) (dom : DomainTick)
    (rest : List Tick) (state : Nat) (cls : HandlerClass)
    (hreg : lookupNat state registry = some cls)
    (hsig : (handleFor cls args dom).signal ≠ 0) :
    (mainLoop args s (⟨state, dom⟩ :: rest)).1 = ProcResult.exited 0 := by
  rcases hc : lookupNat state s.handlers with _ | j
  · simp only [mainLoop]
    rw [construct_fresh state cls args s hreg hc]
    dsimp only
    rw [if_pos hsig]
  · simp only [mainLoop]
    rw [construct_cached state cls args s j hreg hc]
    dsimp only
    rw [if_pos hsig]

/-! ### Claim theorems -/

/-- C1: the claim fails on the code.  The lifecycle state
`VIR_DOMAIN_NOSTATE` (0) has no entry in `StateHandler._registry`, so
constructing a handler for it raises `KeyError(0)` instead of resolving a
registered no-op behaviour.  The class named `NoStateStateHandler` — whose
`handle` does log only and return Continue — is registered under
`VIR_DOMAIN_BLOCKED` (2) instead (source line 103). -/
theorem C1_nostate_dispatch_crashes :
    lookupNat VIR_DOMAIN_NOSTATE registry = none ∧
    stateHandlerConstruct VIR_DOMAIN_NOSTATE exampleArgs initDispState =
      Except.error (PyError.keyError VIR_DOMAIN_NOSTATE) ∧
    lookupNat VIR_DOMAIN_BLOCKED registry = some HandlerClass.nostate ∧
    handleFor HandlerClass.nostate exampleArgs exampleDom =
      ⟨0, [], [⟨LogLevel.debug, "VIR_DOMAIN_NOSTATE"⟩]⟩ :=
  ⟨rfl, rfl, rfl, rfl⟩

/-- C2: in the Running-state resize computation, the target is
`actual - usable + freeMarginKB` clamped below by `minMemoryKB`
(i.e. `max` of the two), and the delta is `actual` minus the clamped
target, for every snapshot and configuration. -/
theorem C2_resize_computation (args : Args) (raw : List (String × Int)) :
    (runningCompute args raw).1 =
      max (lookupStat raw "actual" - lookupStat raw "usable" + args.free)
        args.min ∧
    (runningCompute args raw).2 =
      lookupStat raw "actual" - (runningCompute args raw).1 := by
  unfold runningCompute
  constructor
  · dsimp only
    split <;> omega
  · rfl

/-- C3: the Running-state behaviour issues a `setMemory` request — with the
clamped target as argument — exactly when
`delta < -minThresholdKB ∨ delta > maxThresholdKB`; within the hysteresis
band no `setMemory` call is made that tick. -/
theorem C3_hysteresis_gate (args : Args) (dom : DomainTick)
    (raw : List (String × Int)) (h : dom.memoryStats = Except.ok raw) :
    (runningHandle args dom).resizeRequests =
      if (runningCompute args raw).2 < -args.minThreshold ∨
         (runningCompute args raw).2 > args.maxThreshold
      then [(runningCompute args raw).1] else [] := by
  unfold runningHandle
  rw [h]
  dsimp only
  split
  · split <;> rfl
  · rfl

/-- Witness for C3 at the CLI-default configuration and a concrete
over-allocated snapshot. -/
theorem C3_hysteresis_gate_witness :
    (runningHandle exampleArgs exampleDom).resizeRequests =
      if (runningCompute exampleArgs exampleRaw).2 < -exampleArgs.minThreshold ∨
         (runningCompute exampleArgs exampleRaw).2 > exampleArgs.maxThreshold
      then [(runningCompute exampleArgs exampleRaw).1] else [] :=
  C3_hysteresis_gate exampleArgs exampleDom exampleRaw rfl

/-- C4: for every counter name in `MemoryStats._attr_names` and every raw
statistics mapping, attribute access returns the stored value when present
and 0 when absent, and never raises (`Except.ok` in all cases). -/
theorem C4_field_access_total (name : String) (raw : List (String × Int))
    (h : name ∈ MemoryStats.attr_names) :
    MemoryStats.getattribute raw name =
      Except.ok (match lookupStr name raw with
                 | some v => v
                 | none => 0) := by
  unfold MemoryStats.getattribute lookupStat
  rw [if_pos h]
  rcases hl : lookupStr name raw with _ | v <;> simp [hl, Option.getD]

/-- Witness for C4: the field `rss` yields the stored value 5 when present
and 0 on the empty mapping. -/
theorem C4_field_access_total_witness :
    MemoryStats.getattribute [("rss", (5 : Int))] "rss" = Except.ok 5 ∧
    MemoryStats.getattribute ([] : List (String × Int)) "rss" = Except.ok 0 :=
  ⟨C4_field_access_total "rss" [("rss", 5)] (by decide),
   C4_field_access_total "rss" [] (by decide)⟩

/-- C5: for every registered state, constructing the handler twice returns
the identical instance.  The instance is created lazily: when the state is
not yet cached, the first call allocates a fresh identity (`s.nextId`) and
caches it; when it is cached, the cached identity is returned and no
allocation occurs; the second call never allocates. -/
theorem C5_singleton_per_state (state : Nat) (cls : HandlerClass)
    (args₁ args₂ : Args) (s : DispState)
    (hreg : lookupNat state registry = some cls) :
    ∃ objId s₁ s₂,
      stateHandlerConstruct state args₁ s = Except.ok (objId, cls, s₁) ∧
      stateHandlerConstruct state args₂ s₁ = Except.ok (objId, cls, s₂) ∧
      lookupNat state s₁.handlers = some objId ∧
      (lookupNat state s.handlers = none →
        objId = s.nextId ∧ s₁.nextId = s.nextId + 1) ∧
      (∀ j, lookupNat state s.handlers = some j →
        objId = j ∧ s₁.nextId = s.nextId) ∧
      s₂.nextId = s₁.nextId := by
  rcases hc : lookupNat state s.handlers with _ | j
  · have h₁ := construct_fresh state cls args₁ s hreg hc
    have hh : lookupNat state
        (setFields
          ⟨s.nextId + 1, (s.nextId, ⟨cls, none, none⟩) :: s.objs,
           (state, s.nextId) :: s.handlers⟩
          s.nextId state args₁).handlers = some s.nextId := by
      rw [setFields_handlers]
      simp [lookupNat]
    have h₂ := construct_cached state cls args₂ _ s.nextId hreg hh
    refine ⟨s.nextId, _, _, h₁, h₂, hh, fun _ => ⟨rfl, rfl⟩, ?_, rfl⟩
    intro j hj
    exact Option.noConfusion hj
  · have h₁ := construct_cached state cls args₁ s j hreg hc
    have hh : lookupNat state (setFields s j state args₁).handlers = some j := by
      rw [setFields_handlers]; exact hc
    have h₂ := construct_cached state cls args₂ _ j hreg hh
    refine ⟨j, _, _, h₁, h₂, hh, ?_, ?_, rfl⟩
    · intro hn; exact Option.noConfusion hn
    · intro j' hj'
      injection hj' with hj'
      exact ⟨hj', rfl⟩

/-- Witness for C5 at `VIR_DOMAIN_RUNNING` from the initial dispatcher
state. -/
theorem C5_singleton_per_state_witness :
    ∃ objId s₁ s₂,
      stateHandlerConstruct VIR_DOMAIN_RUNNING exampleArgs initDispState =
        Except.ok (objId, HandlerClass.running, s₁) ∧
      stateHandlerConstruct VIR_DOMAIN_RUNNING exampleArgs₂ s₁ =
        Except.ok (objId, HandlerClass.running, s₂) ∧
      lookupNat VIR_DOMAIN_RUNNING s₁.handlers = some objId ∧
      (lookupNat VIR_DOMAIN_RUNNING initDispState.handlers = none →
        objId = initDispState.nextId ∧ s₁.nextId = initDispState.nextId + 1) ∧
      (∀ j, lookupNat VIR_DOMAIN_RUNNING initDispState.handlers = some j →
        objId = j ∧ s₁.nextId = initDispState.nextId) ∧
      s₂.nextId = s₁.nextId :=
  C5_singleton_per_state VIR_DOMAIN_RUNNING HandlerClass.running
    exampleArgs exampleArgs₂ initDispState rfl

/-- C6: the behaviours bound to ShuttingDown and ShutOff signal Stop (the
non-zero return 1), the behaviours bound to Running, Paused and PmSuspended
signal Continue (0), and a tick resolving to ShuttingDown or ShutOff makes
the control loop exit with success status 0. -/
theorem C6_terminal_states (args : Args) (dom : DomainTick) (s : DispState)
    (rest : List Tick) :
    (handleFor HandlerClass.shutdown args dom).signal = 1 ∧
    (handleFor HandlerClass.shutoff args dom).signal = 1 ∧
    (handleFor HandlerClass.running args dom).signal = 0 ∧
    (handleFor HandlerClass.paused args dom).signal = 0 ∧
    (handleFor HandlerClass.pmsuspended args dom).signal = 0 ∧
    (mainLoop args s (⟨VIR_DOMAIN_SHUTDOWN, dom⟩ :: rest)).1 =
      ProcResult.exited 0 ∧
    (mainLoop args s (⟨VIR_DOMAIN_SHUTOFF, dom⟩ :: rest)).1 =
      ProcResult.exited 0 := by
  refine ⟨rfl, rfl, runningHandle_signal args dom, rfl, rfl, ?_, ?_⟩
  · exact mainLoop_stop args s dom rest VIR_DOMAIN_SHUTDOWN
      HandlerClass.shutdown rfl (by simp [handleFor])
  · exact mainLoop_stop args s dom rest VIR_DOMAIN_SHUTOFF
      HandlerClass.shutoff rfl (by simp [handleFor])

/-- C7: every `libvirtError` inside a Running tick is absorbed: the handler
always returns Continue (0); when `dom.memoryStats()` raises, the tick ends
with only the ERROR-severity log line and no resize request; when the gate
is open and `dom.setMemory` raises, the ERROR-severity line is still
emitted and the handler still returns 0. -/
theorem C7_libvirt_errors_absorbed (args : Args) (dom : DomainTick) :
    (runningHandle args dom).signal = 0 ∧
    (dom.memoryStats = Except.error () →
      runningHandle args dom =
        ⟨0, [], [⟨LogLevel.error, "failed to resize memory"⟩]⟩) ∧
    (∀ raw, dom.memoryStats = Except.ok raw →
      ((runningCompute args raw).2 < -args.minThreshold ∨
       (runningCompute args raw).2 > args.maxThreshold) →
      dom.setMemory (runningCompute args raw).1 = Except.error () →
      LogEvent.mk LogLevel.error "failed to resize memory" ∈
        (runningHandle args dom).logs) := by
  refine ⟨runningHandle_signal args dom, ?_, ?_⟩
  · intro h
    unfold runningHandle
    rw [h]
  · intro raw hok hgate hsm
    unfold runningHandle
    rw [hok]
    dsimp only
    rw [if_pos hgate, hsm]
    simp

/-- Witness for C7: a failing `memoryStats()` and a failing `setMemory`,
both at the CLI-default configuration. -/
theorem C7_libvirt_errors_absorbed_witness :
    runningHandle exampleArgs errStatsDom =
      ⟨0, [], [⟨LogLevel.error, "failed to resize memory"⟩]⟩ ∧
    LogEvent.mk LogLevel.error "failed to resize memory" ∈
      (runningHandle exampleArgs errResizeDom).logs :=
  ⟨(C7_libvirt_errors_absorbed exampleArgs errStatsDom).2.1 rfl,
   (C7_libvirt_errors_absorbed exampleArgs errResizeDom).2.2 exampleRaw rfl
     (by decide) rfl⟩

/-- C8: when the configured poll period is 0, `main` returns 0 immediately:
no hypervisor action is performed (the action trace is empty, so no session
is opened and no tick runs) and the process exits with status 0. -/
theorem C8_period_zero (args : Args) (trace : List Tick)
    (h : args.period = 0) :
    main args trace = (ProcResult.exited 0, []) := by
  unfold main
  rw [if_pos h]

/-- Witness for C8 with period 0 and a non-empty pending trace. -/
theorem C8_period_zero_witness :
    main ⟨GB 2, GB 1, MB 100, MB 200, 0⟩ [⟨VIR_DOMAIN_RUNNING, exampleDom⟩] =
      (ProcResult.exited 0, []) :=
  C8_period_zero ⟨GB 2, GB 1, MB 100, MB 200, 0⟩
    [⟨VIR_DOMAIN_RUNNING, exampleDom⟩] rfl

/-- C9: a lifecycle state with no `_registry` entry makes the constructor
raise `KeyError`, and in the loop this crashes the process (the error is not
absorbed by the per-tick `try/except libvirtError` inside the Running
handler, which never runs). -/
theorem C9_unmapped_state_fatal (state : Nat) (args : Args) (s : DispState)
    (dom : DomainTick) (rest : List Tick)
    (h : lookupNat state registry = none) :
    stateHandlerConstruct state args s =
      Except.error (PyError.keyError state) ∧
    (mainLoop args s (⟨state, dom⟩ :: rest)).1 =
      ProcResult.crashed (PyError.keyError state) := by
  have h₁ : stateHandlerConstruct state args s =
      Except.error (PyError.keyError state) := by
    unfold stateHandlerConstruct stateHandlerNew
    rw [h]
  refine ⟨h₁, ?_⟩
  simp only [mainLoop]
  rw [h₁]

/-- Witness for C9 at the unregistered state `VIR_DOMAIN_CRASHED` (6). -/
theorem C9_unmapped_state_fatal_witness :
    stateHandlerConstruct VIR_DOMAIN_CRASHED exampleArgs initDispState =
      Except.error (PyError.keyError VIR_DOMAIN_CRASHED) ∧
    (mainLoop exampleArgs initDispState
        [⟨VIR_DOMAIN_CRASHED, exampleDom⟩]).1 =
      ProcResult.crashed (PyError.keyError VIR_DOMAIN_CRASHED) :=
  C9_unmapped_state_fatal VIR_DOMAIN_CRASHED exampleArgs initDispState
    exampleDom [] rfl

/-- C10: `__init__` runs on every construction, cached instance or fresh:
after any successful `StateHandler(state, args)` call on a cache-backed
dispatcher state, the returned instance's `_state` and `_args` slots hold
exactly the arguments of that most recent call. -/
theorem C10_init_overwrites_slots (state : Nat) (args : Args) (s : DispState)
    (objId : Nat) (cls : HandlerClass) (s₁ : DispState)
    (hwf : cacheBacked s state = true)
    (hc : stateHandlerConstruct state args s = Except.ok (objId, cls, s₁)) :
    ∃ o : Obj, lookupNat objId s₁.objs = some o ∧
      o.fieldState = some state ∧ o.fieldArgs = some args := by
  rcases hreg : lookupNat state registry with _ | cls₀
  · rw [show stateHandlerConstruct state args s =
        Except.error (PyError.keyError state) by
      unfold stateHandlerConstruct stateHandlerNew; rw [hreg]] at hc
    cases hc
  · rcases hcache : lookupNat state s.handlers with _ | j
    · rw [construct_fresh state cls₀ args s hreg hcache] at hc
      injection hc with hc
      have h₁ := congrArg Prod.fst hc
      have h₃ := congrArg (fun p => p.2.2) hc
      dsimp only at h₁ h₃
      subst h₁
      subst h₃
      refine ⟨⟨cls₀, some state, some args⟩, ?_, rfl, rfl⟩
      exact lookup_setFields _ s.nextId state args ⟨cls₀, none, none⟩
        (by simp [lookupNat])
    · rw [construct_cached state cls₀ args s j hreg hcache] at hc
      injection hc with hc
      have h₁ := congrArg Prod.fst hc
      have h₃ := congrArg (fun p => p.2.2) hc
      dsimp only at h₁ h₃
      subst h₁
      subst h₃
      unfold cacheBacked at hwf
      rw [hcache] at hwf
      dsimp only at hwf
      rcases ho : lookupNat j s.objs with _ | o
      · rw [ho] at hwf; simp at hwf
      · exact ⟨{ o with fieldState := some state, fieldArgs := some args },
          lookup_setFields s j state args o ho, rfl, rfl⟩

/-- Witness for C10: the second construction (with `exampleArgs₂`) of the
Running handler returns the cached instance 0 with its slots overwritten to
the new arguments. -/
theorem C10_init_overwrites_slots_witness :
    ∃ o : Obj, lookupNat 0 demoDisp₂.objs = some o ∧
      o.fieldState = some VIR_DOMAIN_RUNNING ∧
      o.fieldArgs = some exampleArgs₂ :=
  C10_init_overwrites_slots VIR_DOMAIN_RUNNING exampleArgs₂ demoDisp₁ 0
    HandlerClass.running demoDisp₂ (by decide) rfl

end AutoBalloon
